import Mathlib

/-!
Verification of the VibeMerge relay (main.go) against its specification.

The Go program is shallowly embedded: pure logic is translated to Lean
functions; the external effects (Redis RPush/Publish, the Slack
conversations.history call, the pub/sub receive loop) are modelled by
explicit oracle parameters and an effect trace.  JSON values are modelled
by an inductive type whose numbers are integers (no claim touches
fractional numbers).  The JSON decoding rules mirror encoding/json for
the concrete struct types that occur in the program: unknown object keys
are ignored, field names match case-insensitively (ASCII fold of the
lowercase tags used here), `null` leaves the target field at its current
value, and a type mismatch is an error.
-/

/-- A JSON value.  Numbers are modelled as integers, which is faithful for
every payload the program inspects (the only numeric field read is the
integer pr_number). -/
inductive Json where
  | null : Json
  | bool (b : Bool) : Json
  | num (n : Int) : Json
  | str (s : String) : Json
  | arr (elems : List Json) : Json
  | obj (fields : List (String × Json)) : Json

/-- ASCII lower-casing of one character, modelling the case folding that
encoding/json uses to match object keys against struct field tags (all
tags in this program are ASCII). -/
def asciiLower (c : Char) : Char :=
  if 'A' ≤ c ∧ c ≤ 'Z' then Char.ofNat (c.toNat + 32) else c

/-- Case-insensitive key comparison used by encoding/json field matching. -/
def foldEq (a b : String) : Bool :=
  a.data.map asciiLower == b.data.map asciiLower

/-- Decoding a JSON value into a Go `string` field whose current value is
`cur`: null keeps the current value, a string replaces it, anything else
is an unmarshal type error. -/
def jsonToString (cur : String) : Json → Except String String
  | .null => .ok cur
  | .str s => .ok s
  | _ => .error "cannot unmarshal into value of type string"

/-- Decoding a JSON value into a Go `int`/`int64` field. -/
def jsonToInt (cur : Int) : Json → Except String Int
  | .null => .ok cur
  | .num n => .ok n
  | _ => .error "cannot unmarshal into value of type int"

/-- Decoding a JSON value into a Go `bool` field. -/
def jsonToBool (cur : Bool) : Json → Except String Bool
  | .null => .ok cur
  | .bool b => .ok b
  | _ => .error "cannot unmarshal into value of type bool"

/-- The `item` object inside a reaction event (struct ReactionEvent.Event.Item
in main.go). -/
structure ReactionItem where
  type : String := ""
  channel : String := ""
  ts : String := ""
deriving DecidableEq, Repr

/-- The `event` object inside a reaction event (struct ReactionEvent.Event). -/
structure ReactionEventBody where
  type : String := ""
  user : String := ""
  reaction : String := ""
  item : ReactionItem := {}
  itemUser : String := ""
  eventTs : String := ""
deriving DecidableEq, Repr

/-- One entry of the `authorizations` array of a reaction event. -/
structure Authorization where
  enterpriseID : Json := .null
  teamID : String := ""
  userID : String := ""
  isBot : Bool := false
  isEnterpriseInstall : Bool := false

/-- The decoded inbound notification (struct ReactionEvent in main.go).
Fields typed interface\x7b\x7d in Go hold an arbitrary JSON value here. -/
structure ReactionEvent where
  token : String := ""
  teamID : String := ""
  contextTeamID : String := ""
  contextEnterpriseID : Json := .null
  apiAppID : String := ""
  event : ReactionEventBody := {}
  type : String := ""
  eventID : String := ""
  eventTime : Int := 0
  authorizations : List Authorization := []
  isExtSharedChannel : Bool := false
  eventContext : String := ""

def decodeReactionItemField (r : ReactionItem) (kv : String × Json) :
    Except String ReactionItem :=
  if foldEq kv.1 "type" then
    (jsonToString r.type kv.2).map fun s => { r with type := s }
  else if foldEq kv.1 "channel" then
    (jsonToString r.channel kv.2).map fun s => { r with channel := s }
  else if foldEq kv.1 "ts" then
    (jsonToString r.ts kv.2).map fun s => { r with ts := s }
  else .ok r

/-- Unmarshal a JSON value into the Item struct, starting from `cur`. -/
def decodeReactionItem (cur : ReactionItem) : Json → Except String ReactionItem
  | .null => .ok cur
  | .obj fields => fields.foldlM decodeReactionItemField cur
  | _ => .error "cannot unmarshal into value of type struct Item"

def decodeReactionEventBodyField (r : ReactionEventBody) (kv : String × Json) :
    Except String ReactionEventBody :=
  if foldEq kv.1 "type" then
    (jsonToString r.type kv.2).map fun s => { r with type := s }
  else if foldEq kv.1 "user" then
    (jsonToString r.user kv.2).map fun s => { r with user := s }
  else if foldEq kv.1 "reaction" then
    (jsonToString r.reaction kv.2).map fun s => { r with reaction := s }
  else if foldEq kv.1 "item" then
    (decodeReactionItem r.item kv.2).map fun i => { r with item := i }
  else if foldEq kv.1 "item_user" then
    (jsonToString r.itemUser kv.2).map fun s => { r with itemUser := s }
  else if foldEq kv.1 "event_ts" then
    (jsonToString r.eventTs kv.2).map fun s => { r with eventTs := s }
  else .ok r

/-- Unmarshal a JSON value into the Event struct, starting from `cur`. -/
def decodeReactionEventBody (cur : ReactionEventBody) :
    Json → Except String ReactionEventBody
  | .null => .ok cur
  | .obj fields => fields.foldlM decodeReactionEventBodyField cur
  | _ => .error "cannot unmarshal into value of type struct Event"

def decodeAuthorizationField (a : Authorization) (kv : String × Json) :
    Except String Authorization :=
  if foldEq kv.1 "enterprise_id" then .ok { a with enterpriseID := kv.2 }
  else if foldEq kv.1 "team_id" then
    (jsonToString a.teamID kv.2).map fun s => { a with teamID := s }
  else if foldEq kv.1 "user_id" then
    (jsonToString a.userID kv.2).map fun s => { a with userID := s }
  else if foldEq kv.1 "is_bot" then
    (jsonToBool a.isBot kv.2).map fun b => { a with isBot := b }
  else if foldEq kv.1 "is_enterprise_install" then
    (jsonToBool a.isEnterpriseInstall kv.2).map
      fun b => { a with isEnterpriseInstall := b }
  else .ok a

/-- Unmarshal a JSON value into one Authorization struct. -/
def decodeAuthorization (cur : Authorization) : Json → Except String Authorization
  | .null => .ok cur
  | .obj fields => fields.foldlM decodeAuthorizationField cur
  | _ => .error "cannot unmarshal into value of type struct Authorization"

/-- Unmarshal a JSON value into the `authorizations` slice. -/
def decodeAuthorizations (cur : List Authorization) :
    Json → Except String (List Authorization)
  | .null => .ok cur
  | .arr elems => elems.mapM (decodeAuthorization {})
  | _ => .error "cannot unmarshal into value of type slice of Authorization"

def decodeReactionEventField (r : ReactionEvent) (kv : String × Json) :
    Except String ReactionEvent :=
  if foldEq kv.1 "token" then
    (jsonToString r.token kv.2).map fun s => { r with token := s }
  else if foldEq kv.1 "team_id" then
    (jsonToString r.teamID kv.2).map fun s => { r with teamID := s }
  else if foldEq kv.1 "context_team_id" then
    (jsonToString r.contextTeamID kv.2).map fun s => { r with contextTeamID := s }
  else if foldEq kv.1 "context_enterprise_id" then
    .ok { r with contextEnterpriseID := kv.2 }
  else if foldEq kv.1 "api_app_id" then
    (jsonToString r.apiAppID kv.2).map fun s => { r with apiAppID := s }
  else if foldEq kv.1 "event" then
    (decodeReactionEventBody r.event kv.2).map fun e => { r with event := e }
  else if foldEq kv.1 "type" then
    (jsonToString r.type kv.2).map fun s => { r with type := s }
  else if foldEq kv.1 "event_id" then
    (jsonToString r.eventID kv.2).map fun s => { r with eventID := s }
  else if foldEq kv.1 "event_time" then
    (jsonToInt r.eventTime kv.2).map fun n => { r with eventTime := n }
  else if foldEq kv.1 "authorizations" then
    (decodeAuthorizations r.authorizations kv.2).map
      fun l => { r with authorizations := l }
  else if foldEq kv.1 "is_ext_shared_channel" then
    (jsonToBool r.isExtSharedChannel kv.2).map
      fun b => { r with isExtSharedChannel := b }
  else if foldEq kv.1 "event_context" then
    (jsonToString r.eventContext kv.2).map fun s => { r with eventContext := s }
  else .ok r

/-- Unmarshal a JSON value into a fresh zero-valued ReactionEvent. -/
def decodeReactionEventJson : Json → Except String ReactionEvent
  | .null => .ok {}
  | .obj fields => fields.foldlM decodeReactionEventField {}
  | _ => .error "cannot unmarshal into value of type struct ReactionEvent"

/-- An inbound bus message body: either text that is not well-formed JSON,
or a JSON value. -/
inductive Payload where
  | malformed : Payload
  | json (j : Json) : Payload

/-- json.Unmarshal of the raw message body into a ReactionEvent
(handleReactionMessage, main.go line 247). -/
def decodeReactionEvent : Payload → Except String ReactionEvent
  | .malformed => .error "invalid character in message body"
  | .json j => decodeReactionEventJson j

/-- The metadata embedded in Slack messages (struct PRMetadata in main.go). -/
structure PRMetadata where
  prNumber : Int := 0
  repository : String := ""
  prURL : String := ""
  author : String := ""
  branch : String := ""
  eventAction : String := ""
deriving DecidableEq, Repr

def decodePRMetadataField (m : PRMetadata) (kv : String × Json) :
    Except String PRMetadata :=
  if foldEq kv.1 "pr_number" then
    (jsonToInt m.prNumber kv.2).map fun n => { m with prNumber := n }
  else if foldEq kv.1 "repository" then
    (jsonToString m.repository kv.2).map fun s => { m with repository := s }
  else if foldEq kv.1 "pr_url" then
    (jsonToString m.prURL kv.2).map fun s => { m with prURL := s }
  else if foldEq kv.1 "author" then
    (jsonToString m.author kv.2).map fun s => { m with author := s }
  else if foldEq kv.1 "branch" then
    (jsonToString m.branch kv.2).map fun s => { m with branch := s }
  else if foldEq kv.1 "event_action" then
    (jsonToString m.eventAction kv.2).map fun s => { m with eventAction := s }
  else .ok m

/-- Unmarshal a JSON value into a fresh zero-valued PRMetadata
(getMessageMetadata, main.go line 341; the Marshal/Unmarshal round trip of
the EventPayload map collapses to decoding the payload value directly). -/
def decodePRMetadata : Json → Except String PRMetadata
  | .null => .ok {}
  | .obj fields => fields.foldlM decodePRMetadataField {}
  | _ => .error "cannot unmarshal into value of type struct PRMetadata"

/-- The application configuration (struct Config in main.go). -/
structure Config where
  slackBotToken : String
  redisAddr : String
  redisPassword : String
  redisDB : Int
  workDir : String
  targetEmoji : String
  targetBranch : String
  poppitQueue : String
  timeBombChannel : String
  timeBombTTL : Int
  logLevel : String
deriving DecidableEq, Repr

/-- An environment, as seen through os.Getenv: every key maps to a string,
with "" for keys that are unset (Getenv cannot distinguish unset from
empty). -/
def Env : Type := String → String

/-- getEnv (main.go lines 203 to 208). -/
def getEnv (env : Env) (key defaultValue : String) : String :=
  if env key ≠ "" then env key else defaultValue

/-- strconv.Atoi: optional sign, one or more decimal digits, value within
the int64 range; anything else is an error (None). -/
def goAtoi (s : String) : Option Int :=
  let signAndDigits : Int × List Char :=
    match s.data with
    | '+' :: rest => (1, rest)
    | '-' :: rest => (-1, rest)
    | chars => (1, chars)
  let digits := signAndDigits.2
  if digits = [] then none
  else if digits.all Char.isDigit then
    let magnitude : Nat := digits.foldl (fun acc c => acc * 10 + (c.toNat - 48)) 0
    let value : Int := signAndDigits.1 * magnitude
    if value < -(2 ^ 63) ∨ 2 ^ 63 ≤ value then none else some value
  else none

/-- getEnvInt (main.go lines 210 to 219): a set but unparsable value falls
back to the default with a warning. -/
def getEnvInt (env : Env) (key : String) (defaultValue : Int) : Int :=
  if env key ≠ "" then
    match goAtoi (env key) with
    | some intValue => intValue
    | none => defaultValue
  else defaultValue

/-- loadConfig (main.go lines 181 to 201).  log.Fatal on a missing
SLACK_BOT_TOKEN is modelled as the error case; RedisDB is the literal 0. -/
def loadConfig (env : Env) : Except String Config :=
  let config : Config :=
    { slackBotToken := getEnv env "SLACK_BOT_TOKEN" ""
      redisAddr := getEnv env "REDIS_ADDR" "localhost:6379"
      redisPassword := getEnv env "REDIS_PASSWORD" ""
      redisDB := 0
      workDir := getEnv env "WORK_DIR" "/tmp/vibemerge"
      targetEmoji := getEnv env "TARGET_EMOJI" "heart_eyes_cat"
      targetBranch := getEnv env "TARGET_BRANCH" "refs/heads/main"
      poppitQueue := getEnv env "POPPIT_QUEUE" "poppit-commands"
      timeBombChannel := getEnv env "TIMEBOMB_CHANNEL" "timebomb-messages"
      timeBombTTL := getEnvInt env "TIMEBOMB_TTL" 86400
      logLevel := getEnv env "LOG_LEVEL" "INFO" }
  if config.slackBotToken = "" then
    .error "SLACK_BOT_TOKEN environment variable is required"
  else
    .ok config

/-- Observable startup milestones of main (main.go lines 142 to 179). -/
inductive StartupStep where
  | configLoaded : StartupStep
  | busClientCreated : StartupStep
  | busPinged (ok : Bool) : StartupStep
  | busSubscribed : StartupStep
  | fatalExit (msg : String) : StartupStep
deriving DecidableEq, Repr

/-- The startup sequence of main: loadConfig may exit fatally before the
Redis client exists; otherwise the client is created, pinged (fatal on
failure), and the dispatch goroutine subscribes. -/
def mainStartup (env : Env) (pingOk : Bool) : List StartupStep :=
  match loadConfig env with
  | .error msg => [.fatalExit msg]
  | .ok _ =>
    if pingOk then
      [.configLoaded, .busClientCreated, .busPinged true, .busSubscribed]
    else
      [.configLoaded, .busClientCreated, .busPinged false,
       .fatalExit "Failed to connect to Redis"]

/-- Message metadata as returned by the Slack API (slack.SlackMetadata):
an event type and an event payload map. -/
structure SlackMessageMetadata where
  eventType : String := ""
  eventPayload : Json := .null

/-- The part of a Slack message that getMessageMetadata inspects. -/
structure SlackMessage where
  metadata : SlackMessageMetadata := {}

/-- The conversations.history response. -/
structure ConversationHistory where
  messages : List SlackMessage := []

/-- The external Slack call: channel and timestamp to either a transport
error or a history response. -/
def SlackFetch : Type := String → String → Except String ConversationHistory

/-- getMessageMetadata (main.go lines 308 to 351).  The Marshal step on the
EventPayload map cannot fail for payloads that came from JSON, so it does
not appear as a separate error case. -/
def getMessageMetadata (slackFetch : SlackFetch) (channel timestamp : String) :
    Except String (Option PRMetadata) :=
  match slackFetch channel timestamp with
  | .error e => .error ("failed to get conversation history: " ++ e)
  | .ok history =>
    match history.messages with
    | [] => .error ("no message found at timestamp " ++ timestamp)
    | message :: _ =>
      if message.metadata.eventType = "" then
        .ok none
      else
        match decodePRMetadata message.metadata.eventPayload with
        | .error e => .error ("failed to unmarshal PR metadata: " ++ e)
        | .ok metadata =>
          if metadata.prNumber = 0 ∨ metadata.repository = "" then .ok none
          else .ok (some metadata)

/-- The command payload sent to Poppit (struct PoppitPayload in main.go). -/
structure PoppitPayload where
  repo : String
  branch : String
  type : String
  dir : String
  commands : List String
deriving DecidableEq, Repr

/-- The TTL message sent to TimeBomb (struct TimeBombMessage in main.go). -/
structure TimeBombMessage where
  channel : String
  ts : String
  ttl : Int
deriving DecidableEq, Repr

/-- Construction of the Poppit payload (handleReactionMessage, main.go
lines 274 to 283): branch and dir come from the configuration, type is the
metadata action label, and the two command strings are the Sprintf
templates in their fixed order. -/
def buildPoppitPayload (config : Config) (metadata : PRMetadata) : PoppitPayload :=
  { repo := metadata.repository
    branch := config.targetBranch
    type := metadata.eventAction
    dir := config.workDir
    commands :=
      ["gh pr --repo " ++ metadata.repository ++ " ready " ++
        toString metadata.prNumber,
       "gh pr --repo " ++ metadata.repository ++ " merge " ++
        toString metadata.prNumber ++ " --squash"] }

/-- One character of encoding/json string escaping (HTML-safe encoder used
by json.Marshal). -/
def goEscapeChar (c : Char) : String :=
  if c = '"' then "\\\""
  else if c = '\\' then "\\\\"
  else if c = '\n' then "\\n"
  else if c = '\r' then "\\r"
  else if c = '\t' then "\\t"
  else if c = '<' then "\\u003c"
  else if c = '>' then "\\u003e"
  else if c = '&' then "\\u0026"
  else if c.toNat < 32 then
    "\\u00" ++ String.singleton (Nat.digitChar (c.toNat / 16)) ++
      String.singleton (Nat.digitChar (c.toNat % 16))
  else if c.toNat = 8232 then "\\u2028"
  else if c.toNat = 8233 then "\\u2029"
  else String.singleton c

/-- A JSON string literal as json.Marshal renders it. -/
def jsonQuote (s : String) : String :=
  "\"" ++ String.join (s.data.map goEscapeChar) ++ "\""

/-- json.Marshal of a PoppitPayload: the object keys in struct order. -/
def marshalPoppitPayload (p : PoppitPayload) : String :=
  "\x7b\"repo\":" ++ jsonQuote p.repo ++
    ",\"branch\":" ++ jsonQuote p.branch ++
    ",\"type\":" ++ jsonQuote p.type ++
    ",\"dir\":" ++ jsonQuote p.dir ++
    ",\"commands\":[" ++ String.intercalate "," (p.commands.map jsonQuote) ++
    "]\x7d"

/-- json.Marshal of a TimeBombMessage: the object keys in struct order. -/
def marshalTimeBombMessage (m : TimeBombMessage) : String :=
  "\x7b\"channel\":" ++ jsonQuote m.channel ++
    ",\"ts\":" ++ jsonQuote m.ts ++
    ",\"ttl\":" ++ toString m.ttl ++ "\x7d"

/-- One Redis side effect attempted by the pipeline, with the value that
was sent and whether the call succeeded. -/
inductive Effect where
  | rpush (queue value : String) (ok : Bool) : Effect
  | publish (channel value : String) (ok : Bool) : Effect
deriving DecidableEq, Repr

/-- Whether the two Redis calls of one pipeline run would succeed. -/
structure RedisOutcome where
  rpushOk : Bool
  publishOk : Bool
deriving DecidableEq, Repr

/-- publishTimeBombMessage (main.go lines 353 to 371): build the TTL
message, marshal it, publish it; the publish may fail. -/
def publishTimeBombMessage (publishOk : Bool) (config : Config)
    (channel timestamp : String) : Except String Unit × List Effect :=
  let timeBombMsg : TimeBombMessage :=
    { channel := channel, ts := timestamp, ttl := config.timeBombTTL }
  let msgJSON := marshalTimeBombMessage timeBombMsg
  if publishOk then
    (.ok (), [.publish config.timeBombChannel msgJSON true])
  else
    (.error ("failed to publish to " ++ config.timeBombChannel),
     [.publish config.timeBombChannel msgJSON false])

/-- handleReactionMessage (main.go lines 245 to 306): decode, filter on the
target emoji, fetch metadata, build and push the Poppit payload, then
publish the TimeBomb message; a TimeBomb failure is only a warning. -/
def handleReactionMessage (slackFetch : SlackFetch) (redis : RedisOutcome)
    (config : Config) (payload : Payload) : Except String Unit × List Effect :=
  match decodeReactionEvent payload with
  | .error e => (.error ("failed to unmarshal reaction event: " ++ e), [])
  | .ok reactionEvent =>
    if reactionEvent.event.reaction ≠ config.targetEmoji then
      (.ok (), [])
    else
      match getMessageMetadata slackFetch reactionEvent.event.item.channel
          reactionEvent.event.item.ts with
      | .error e => (.error ("failed to get message metadata: " ++ e), [])
      | .ok none => (.ok (), [])
      | .ok (some metadata) =>
        let poppitPayload := buildPoppitPayload config metadata
        let payloadJSON := marshalPoppitPayload poppitPayload
        if redis.rpushOk then
          let timeBomb := publishTimeBombMessage redis.publishOk config
            reactionEvent.event.item.channel reactionEvent.event.item.ts
          (.ok (), .rpush config.poppitQueue payloadJSON true :: timeBomb.2)
        else
          (.error ("failed to push to " ++ config.poppitQueue),
           [.rpush config.poppitQueue payloadJSON false])

/-- One iteration input of the dispatch loop: the outcome of the blocking
receive, and the would-be outcomes of this iteration Redis calls. -/
structure Inbound where
  recv : Except String Payload
  redis : RedisOutcome

/-- processReactions (main.go lines 221 to 243) over a finite delivery
sequence: a receive error is logged and skipped, otherwise the per-message
pipeline runs to completion; its error, if any, is logged and the loop
continues with the next message. -/
def processReactions (slackFetch : SlackFetch) (config : Config) :
    List Inbound → List Effect
  | [] => []
  | m :: rest =>
    match m.recv with
    | .error _ => processReactions slackFetch config rest
    | .ok payload =>
      (handleReactionMessage slackFetch m.redis config payload).2 ++
        processReactions slackFetch config rest

/-- The work-queue entries that were actually published (successful RPush
calls), in trace order. -/
def workQueueEntries : List Effect → List (String × String)
  | [] => []
  | .rpush queue value true :: rest => (queue, value) :: workQueueEntries rest
  | _ :: rest => workQueueEntries rest

/-- Every cleanup request that was attempted (Publish calls, successful or
not), in trace order. -/
def cleanupAttempts : List Effect → List (String × String)
  | [] => []
  | .publish channel value _ :: rest => (channel, value) :: cleanupAttempts rest
  | _ :: rest => cleanupAttempts rest

/-- The work-queue entry a single inbound message contributes, if any. -/
def messageEntry (slackFetch : SlackFetch) (config : Config) (m : Inbound) :
    Option (String × String) :=
  match m.recv with
  | .error _ => none
  | .ok payload =>
    (workQueueEntries (handleReactionMessage slackFetch m.redis config payload).2).head?

/-! ## Shared lemmas about the effect trace -/

theorem workQueueEntries_append (a b : List Effect) :
    workQueueEntries (a ++ b) = workQueueEntries a ++ workQueueEntries b := by
  induction a with
  | nil => rfl
  | cons e rest ih =>
    cases e with
    | rpush q v ok => cases ok <;> simp [workQueueEntries, ih]
    | publish c v ok => simp [workQueueEntries, ih]

theorem cleanupAttempts_append (a b : List Effect) :
    cleanupAttempts (a ++ b) = cleanupAttempts a ++ cleanupAttempts b := by
  induction a with
  | nil => rfl
  | cons e rest ih =>
    cases e with
    | rpush q v ok => simp [cleanupAttempts, ih]
    | publish c v ok => simp [cleanupAttempts, ih]

/-- Shape analysis of one pipeline run: it produces no effects, a single
failed push, or a successful push followed by exactly one cleanup publish
whose success flag is the publish oracle. -/
theorem handle_effects_shape (slackFetch : SlackFetch) (redis : RedisOutcome)
    (config : Config) (payload : Payload) :
    (handleReactionMessage slackFetch redis config payload).2 = [] ∨
    (∃ v, (handleReactionMessage slackFetch redis config payload).2 =
      [.rpush config.poppitQueue v false]) ∨
    (∃ v c, (handleReactionMessage slackFetch redis config payload).2 =
      [.rpush config.poppitQueue v true,
       .publish config.timeBombChannel c redis.publishOk]) := by
  obtain ⟨rpushOk, publishOk⟩ := redis
  unfold handleReactionMessage publishTimeBombMessage
  cases decodeReactionEvent payload with
  | error e => left; rfl
  | ok reactionEvent =>
    by_cases hne : reactionEvent.event.reaction ≠ config.targetEmoji
    · simp [hne]
    · simp only [hne, if_false, ite_false, if_neg, not_true_eq_false]
      cases getMessageMetadata slackFetch reactionEvent.event.item.channel
          reactionEvent.event.item.ts with
      | error e => simp [hne]
      | ok option =>
        cases option with
        | none => simp [hne]
        | some metadata =>
          cases rpushOk with
          | false => simp [hne]
          | true => cases publishOk with
            | false => simp [hne]
            | true => simp [hne]

/-- Each run of the pipeline publishes at most one work-queue entry. -/
theorem handle_at_most_one_entry (slackFetch : SlackFetch) (redis : RedisOutcome)
    (config : Config) (payload : Payload) :
    workQueueEntries (handleReactionMessage slackFetch redis config payload).2 = [] ∨
    ∃ entry,
      workQueueEntries (handleReactionMessage slackFetch redis config payload).2 =
        [entry] := by
  rcases handle_effects_shape slackFetch redis config payload with h | ⟨v, h⟩ | ⟨v, c, h⟩
  · left; rw [h]; rfl
  · left; rw [h]; rfl
  · right; exact ⟨(config.poppitQueue, v), by rw [h]; rfl⟩

/-! ## Witness fixtures: a concrete configuration, event, and metadata -/

/-- The configuration produced by the default environment plus a token. -/
def wConfig : Config :=
  { slackBotToken := "xoxb-token", redisAddr := "localhost:6379",
    redisPassword := "", redisDB := 0, workDir := "/tmp/vibemerge",
    targetEmoji := "heart_eyes_cat", targetBranch := "refs/heads/main",
    poppitQueue := "poppit-commands", timeBombChannel := "timebomb-messages",
    timeBombTTL := 86400, logLevel := "INFO" }

/-- A matching inbound reaction message, as JSON. -/
def wEventJson : Json :=
  .obj [("event", .obj [("reaction", .str "heart_eyes_cat"),
    ("item", .obj [("type", .str "message"), ("channel", .str "C123"),
      ("ts", .str "1700000000.000100")])])]

def wPayload : Payload := .json wEventJson

/-- The event that wPayload decodes to. -/
def wItem : ReactionItem :=
  { type := "message", channel := "C123", ts := "1700000000.000100" }

def wEventBody : ReactionEventBody :=
  { reaction := "heart_eyes_cat", item := wItem }

def wEvent : ReactionEvent :=
  { event := wEventBody }

/-- A metadata payload carrying a valid unit of work. -/
def wMetaPayload : Json :=
  .obj [("pr_number", .num 42), ("repository", .str "org/repo"),
    ("pr_url", .str "https://example.com/pr/42"), ("author", .str "alice"),
    ("branch", .str "feature-branch"), ("event_action", .str "opened")]

/-- The PRMetadata that wMetaPayload decodes to. -/
def wMeta : PRMetadata :=
  { prNumber := 42, repository := "org/repo",
    prURL := "https://example.com/pr/42", author := "alice",
    branch := "feature-branch", eventAction := "opened" }

/-- A Slack fetch oracle that returns one message holding wMetaPayload. -/
def wFetch : SlackFetch := fun _ _ =>
  .ok { messages := [{ metadata :=
    { eventType := "pr_notification", eventPayload := wMetaPayload } }] }

/-- An environment with every key unset. -/
def wEnvEmpty : Env := fun _ => ""

/-- An environment with only the Slack token set. -/
def wEnvToken : Env := fun key =>
  if key = "SLACK_BOT_TOKEN" then "xoxb-token" else ""

/-- An environment that sets the token and also tries to override the Redis
database index through the only plausible key name. -/
def wEnvRedisDBFive : Env := fun key =>
  if key = "SLACK_BOT_TOKEN" then "xoxb-token"
  else if key = "REDIS_DB" then "5" else ""

/-! ## Claim theorems -/

/-- Claim C7: if the Slack token setting is absent, loadConfig fails with
the fatal message and the startup trace stops before any Redis client is
created or any subscription happens; conversely any environment that does
provide the token loads successfully, so the token is the only setting
whose absence is fatal. -/
theorem missing_token_fatal_before_bus (env : Env) (pingOk : Bool) :
    (env "SLACK_BOT_TOKEN" = "" →
      loadConfig env = .error "SLACK_BOT_TOKEN environment variable is required" ∧
      mainStartup env pingOk =
        [.fatalExit "SLACK_BOT_TOKEN environment variable is required"] ∧
      StartupStep.busClientCreated ∉ mainStartup env pingOk ∧
      StartupStep.busSubscribed ∉ mainStartup env pingOk) ∧
    (env "SLACK_BOT_TOKEN" ≠ "" → ∃ config, loadConfig env = .ok config) := by
  constructor
  · intro h
    have hload : loadConfig env =
        .error "SLACK_BOT_TOKEN environment variable is required" := by
      simp [loadConfig, getEnv, h]
    refine ⟨hload, ?_, ?_, ?_⟩ <;> simp [mainStartup, hload]
  · intro h
    cases hc : loadConfig env with
    | ok config => exact ⟨config, rfl⟩
    | error e =>
      exfalso
      simp [loadConfig, getEnv, h] at hc

/-- Claim C7 witness: the all-empty environment is fatal before any bus
step, and the token-only environment loads. -/
theorem missing_token_fatal_before_bus_witness :
    (wEnvEmpty "SLACK_BOT_TOKEN" = "" ∧
      mainStartup wEnvEmpty true =
        [.fatalExit "SLACK_BOT_TOKEN environment variable is required"]) ∧
    (wEnvToken "SLACK_BOT_TOKEN" ≠ "" ∧ ∃ config, loadConfig wEnvToken = .ok config) :=
  ⟨⟨rfl, ((missing_token_fatal_before_bus wEnvEmpty true).1 rfl).2.1⟩,
   ⟨by decide, (missing_token_fatal_before_bus wEnvToken true).2 (by decide)⟩⟩

/-- Claim C8 counterexample: the Redis database index is the literal 0 in
loadConfig; no environment, in particular none setting a REDIS_DB key, can
make the client use a different namespace index. -/
theorem redis_db_not_overridable :
    (loadConfig wEnvRedisDBFive).map Config.redisDB = .ok 0 ∧
    ¬ ∃ env config, loadConfig env = .ok config ∧ config.redisDB ≠ 0 := by
  constructor
  · rfl
  · rintro ⟨env, config, h, hne⟩
    apply hne
    simp only [loadConfig] at h
    split at h
    · exact absurd h (by simp)
    · simp only [Except.ok.injEq] at h
      rw [← h]

/-- Claim C8 (amended): the bus namespace/index is part of the Config value
but is hardcoded to 0; every successfully loaded configuration carries
index 0 regardless of the environment. -/
theorem redis_db_always_zero (env : Env) (config : Config)
    (h : loadConfig env = .ok config) : config.redisDB = 0 := by
  simp only [loadConfig] at h
  split at h
  · exact absurd h (by simp)
  · simp only [Except.ok.injEq] at h
    rw [← h]

/-- Claim C8 amended witness: the token-only environment loads a config
whose Redis database index is 0. -/
theorem redis_db_always_zero_witness :
    loadConfig wEnvToken = .ok wConfig ∧ wConfig.redisDB = 0 :=
  ⟨by rfl, redis_db_always_zero wEnvToken wConfig (by rfl)⟩

/-- Claim C10: a key whose external value is the empty string is treated
exactly like an unset key: getEnv returns the hardcoded default, and an
auth token that is empty is still the fatal startup condition. -/
theorem empty_value_is_unset (env : Env) (key defaultValue : String) :
    (env key = "" → getEnv env key defaultValue = defaultValue) ∧
    (env "SLACK_BOT_TOKEN" = "" →
      loadConfig env = .error "SLACK_BOT_TOKEN environment variable is required") := by
  constructor
  · intro h
    simp [getEnv, h]
  · intro h
    simp [loadConfig, getEnv, h]

/-- Claim C10 witness: with every key mapped to the empty string, getEnv
falls back to the default and loadConfig is fatal. -/
theorem empty_value_is_unset_witness :
    wEnvEmpty "WORK_DIR" = "" ∧
    getEnv wEnvEmpty "WORK_DIR" "/tmp/vibemerge" = "/tmp/vibemerge" ∧
    loadConfig wEnvEmpty =
      .error "SLACK_BOT_TOKEN environment variable is required" :=
  ⟨rfl, (empty_value_is_unset wEnvEmpty "WORK_DIR" "/tmp/vibemerge").1 rfl,
   (empty_value_is_unset wEnvEmpty "WORK_DIR" "/tmp/vibemerge").2 rfl⟩

/-- Claim C3: the metadata fetcher returns the parsed PRMetadata exactly
when the first fetched message carries a payload that deserializes with a
non-zero pr_number and a non-empty repository; it returns the non-error
outcome none when the payload is absent (empty metadata event type) or
either required field is default; and it returns a hard error exactly when
the external call fails, when zero messages are found, or when a present
payload fails to deserialize. -/
theorem getMessageMetadata_cases (slackFetch : SlackFetch)
    (channel timestamp : String) :
    (∀ e, slackFetch channel timestamp = .error e →
      getMessageMetadata slackFetch channel timestamp =
        .error ("failed to get conversation history: " ++ e)) ∧
    (∀ history, slackFetch channel timestamp = .ok history →
      history.messages = [] →
      getMessageMetadata slackFetch channel timestamp =
        .error ("no message found at timestamp " ++ timestamp)) ∧
    (∀ history message rest, slackFetch channel timestamp = .ok history →
      history.messages = message :: rest →
      (message.metadata.eventType = "" →
        getMessageMetadata slackFetch channel timestamp = .ok none) ∧
      (message.metadata.eventType ≠ "" →
        (∀ e, decodePRMetadata message.metadata.eventPayload = .error e →
          getMessageMetadata slackFetch channel timestamp =
            .error ("failed to unmarshal PR metadata: " ++ e)) ∧
        (∀ metadata,
          decodePRMetadata message.metadata.eventPayload = .ok metadata →
          (metadata.prNumber = 0 ∨ metadata.repository = "" →
            getMessageMetadata slackFetch channel timestamp = .ok none) ∧
          (metadata.prNumber ≠ 0 → metadata.repository ≠ "" →
            getMessageMetadata slackFetch channel timestamp =
              .ok (some metadata))))) := by
  refine ⟨?_, ?_, ?_⟩
  · intro e he
    simp [getMessageMetadata, he]
  · intro history hh hm
    simp [getMessageMetadata, hh, hm]
  · intro history message rest hh hm
    constructor
    · intro habs
      simp [getMessageMetadata, hh, hm, habs]
    · intro hpres
      constructor
      · intro e hdec
        simp [getMessageMetadata, hh, hm, hpres, hdec]
      · intro metadata hdec
        constructor
        · intro hdefault
          simp [getMessageMetadata, hh, hm, hpres, hdec, hdefault]
        · intro hnum hrepo
          simp [getMessageMetadata, hh, hm, hpres, hdec, hnum, hrepo]

/-- Claim C3 witness: a concrete fetch whose single message carries a valid
payload yields exactly the parsed metadata; a concrete empty-type message
yields none; a concrete failing fetch yields the hard error. -/
theorem getMessageMetadata_cases_witness :
    getMessageMetadata wFetch "C123" "1700000000.000100" = .ok (some wMeta) ∧
    getMessageMetadata (fun _ _ => .ok { messages := [{ metadata := {} }] })
      "C123" "1700000000.000100" = .ok none ∧
    getMessageMetadata (fun _ _ => .error "network down") "C123" "1" =
      .error "failed to get conversation history: network down" := by
  refine ⟨?_, ?_, ?_⟩
  · exact (((getMessageMetadata_cases wFetch "C123" "1700000000.000100").2.2
      { messages := [{ metadata :=
          { eventType := "pr_notification", eventPayload := wMetaPayload } }] }
      { metadata :=
          { eventType := "pr_notification", eventPayload := wMetaPayload } }
      [] rfl rfl).2 (by decide) ).2 wMeta (by rfl) |>.2 (by decide) (by decide)
  · exact ((getMessageMetadata_cases
      (fun _ _ => .ok { messages := [{ metadata := {} }] })
      "C123" "1700000000.000100").2.2 { messages := [{ metadata := {} }] }
      { metadata := {} } [] rfl rfl).1 rfl
  · exact (getMessageMetadata_cases (fun _ _ => .error "network down")
      "C123" "1").1 "network down" rfl

/-- Claim C1: for a reaction event whose decoded reaction is the configured
target emoji and whose metadata fetch returns valid metadata, the entry
pushed to the work queue is exactly the JSON object with repo from the
metadata, branch from the configuration (never the metadata branch field),
type copied verbatim from event_action, dir from the configuration, and
the two gh commands in their fixed order. -/
theorem handle_pushes_exact_poppit_entry (slackFetch : SlackFetch)
    (redis : RedisOutcome) (config : Config) (payload : Payload)
    (reactionEvent : ReactionEvent) (metadata : PRMetadata)
    (hdec : decodeReactionEvent payload = .ok reactionEvent)
    (hmatch : reactionEvent.event.reaction = config.targetEmoji)
    (hmeta : getMessageMetadata slackFetch reactionEvent.event.item.channel
      reactionEvent.event.item.ts = .ok (some metadata))
    (hpush : redis.rpushOk = true) :
    workQueueEntries (handleReactionMessage slackFetch redis config payload).2 =
      [(config.poppitQueue,
        marshalPoppitPayload
          { repo := metadata.repository
            branch := config.targetBranch
            type := metadata.eventAction
            dir := config.workDir
            commands :=
              ["gh pr --repo " ++ metadata.repository ++ " ready " ++
                toString metadata.prNumber,
               "gh pr --repo " ++ metadata.repository ++ " merge " ++
                toString metadata.prNumber ++ " --squash"] })] := by
  unfold handleReactionMessage
  rw [hdec]
  simp only [hmatch, ne_eq, not_true_eq_false, if_false, ite_false,
    if_neg, not_false_eq_true, hmeta, hpush, if_true, ite_true]
  unfold publishTimeBombMessage buildPoppitPayload
  cases redis.publishOk <;> simp [workQueueEntries]

/-- Claim C1 witness: the fixture event and metadata produce exactly the
work-queue entry of the specification example. -/
theorem handle_pushes_exact_poppit_entry_witness :
    decodeReactionEvent wPayload = .ok wEvent ∧
    wEvent.event.reaction = wConfig.targetEmoji ∧
    getMessageMetadata wFetch wEvent.event.item.channel wEvent.event.item.ts =
      .ok (some wMeta) ∧
    workQueueEntries (handleReactionMessage wFetch
        { rpushOk := true, publishOk := true } wConfig wPayload).2 =
      [("poppit-commands",
        "\x7b\"repo\":\"org/repo\",\"branch\":\"refs/heads/main\",\"type\":\"opened\",\"dir\":\"/tmp/vibemerge\",\"commands\":[\"gh pr --repo org/repo ready 42\",\"gh pr --repo org/repo merge 42 --squash\"]\x7d")] :=
  ⟨by rfl, by rfl, by rfl,
    (handle_pushes_exact_poppit_entry wFetch
      { rpushOk := true, publishOk := true } wConfig wPayload wEvent wMeta
      (by rfl) (by rfl) (by rfl) (by rfl)).trans (by rfl)⟩

/-- Claim C2: an inbound message that fails to decode, or whose reaction is
not the configured target emoji, produces no work-queue entry and no
cleanup attempt, and the dispatch loop continues with the remaining
messages unchanged. -/
theorem nonmatching_message_ignored (slackFetch : SlackFetch)
    (redis : RedisOutcome) (config : Config) (payload : Payload)
    (rest : List Inbound)
    (h : (∃ e, decodeReactionEvent payload = .error e) ∨
      (∃ reactionEvent, decodeReactionEvent payload = .ok reactionEvent ∧
        reactionEvent.event.reaction ≠ config.targetEmoji)) :
    (handleReactionMessage slackFetch redis config payload).2 = [] ∧
    workQueueEntries (handleReactionMessage slackFetch redis config payload).2 = [] ∧
    cleanupAttempts (handleReactionMessage slackFetch redis config payload).2 = [] ∧
    processReactions slackFetch config
        ({ recv := .ok payload, redis := redis } :: rest) =
      processReactions slackFetch config rest := by
  have heff : (handleReactionMessage slackFetch redis config payload).2 = [] := by
    rcases h with ⟨e, he⟩ | ⟨reactionEvent, hok, hne⟩
    · unfold handleReactionMessage
      rw [he]
    · unfold handleReactionMessage
      rw [hok]
      simp [hne]
  refine ⟨heff, by rw [heff]; rfl, by rw [heff]; rfl, ?_⟩
  simp [processReactions, heff]

/-- Claim C2 witness: a thumbsup reaction against the heart_eyes_cat
configuration is ignored and the loop result over the remaining (empty)
list is unchanged. -/
theorem nonmatching_message_ignored_witness :
    decodeReactionEvent (.json (.obj [("event",
        .obj [("reaction", .str "thumbsup")])])) =
      .ok { event := { reaction := "thumbsup" } } ∧
    ("thumbsup" : String) ≠ wConfig.targetEmoji ∧
    (handleReactionMessage wFetch { rpushOk := true, publishOk := true }
      wConfig (.json (.obj [("event", .obj [("reaction", .str "thumbsup")])]))).2 = [] :=
  ⟨by rfl, by decide,
    (nonmatching_message_ignored wFetch { rpushOk := true, publishOk := true }
      wConfig (.json (.obj [("event", .obj [("reaction", .str "thumbsup")])])) []
      (Or.inr ⟨{ event := { reaction := "thumbsup" } }, by rfl, by decide⟩)).1⟩

/-- Claim C4: once the work-queue push has succeeded, a failing cleanup
publish does not fail the pipeline: the result is success and the pushed
work-queue entry is unchanged. -/
theorem cleanup_failure_nonfatal (slackFetch : SlackFetch) (config : Config)
    (payload : Payload) (reactionEvent : ReactionEvent) (metadata : PRMetadata)
    (hdec : decodeReactionEvent payload = .ok reactionEvent)
    (hmatch : reactionEvent.event.reaction = config.targetEmoji)
    (hmeta : getMessageMetadata slackFetch reactionEvent.event.item.channel
      reactionEvent.event.item.ts = .ok (some metadata)) :
    (handleReactionMessage slackFetch { rpushOk := true, publishOk := false }
      config payload).1 = .ok () ∧
    workQueueEntries (handleReactionMessage slackFetch
        { rpushOk := true, publishOk := false } config payload).2 =
      [(config.poppitQueue,
        marshalPoppitPayload (buildPoppitPayload config metadata))] := by
  constructor
  · unfold handleReactionMessage
    rw [hdec]
    simp [hmatch, hmeta]
  · unfold handleReactionMessage
    rw [hdec]
    simp [hmatch, hmeta, publishTimeBombMessage, workQueueEntries]

/-- Claim C4 witness: with the fixture event and a failing cleanup publish,
the pipeline still succeeds and the entry is still published. -/
theorem cleanup_failure_nonfatal_witness :
    decodeReactionEvent wPayload = .ok wEvent ∧
    (handleReactionMessage wFetch { rpushOk := true, publishOk := false }
      wConfig wPayload).1 = .ok () ∧
    workQueueEntries (handleReactionMessage wFetch
        { rpushOk := true, publishOk := false } wConfig wPayload).2 =
      [(wConfig.poppitQueue,
        marshalPoppitPayload (buildPoppitPayload wConfig wMeta))] :=
  ⟨by rfl,
    (cleanup_failure_nonfatal wFetch wConfig wPayload wEvent wMeta
      (by rfl) (by rfl) (by rfl)).1,
    (cleanup_failure_nonfatal wFetch wConfig wPayload wEvent wMeta
      (by rfl) (by rfl) (by rfl)).2⟩

/-- Claim C5: after a successful work-queue push, exactly one cleanup
request is attempted, carrying the channel and timestamp of the triggering
reaction event and the configured TTL, whether or not the publish itself
succeeds. -/
theorem one_cleanup_with_event_coordinates (slackFetch : SlackFetch)
    (publishOk : Bool) (config : Config) (payload : Payload)
    (reactionEvent : ReactionEvent) (metadata : PRMetadata)
    (hdec : decodeReactionEvent payload = .ok reactionEvent)
    (hmatch : reactionEvent.event.reaction = config.targetEmoji)
    (hmeta : getMessageMetadata slackFetch reactionEvent.event.item.channel
      reactionEvent.event.item.ts = .ok (some metadata)) :
    cleanupAttempts (handleReactionMessage slackFetch
        { rpushOk := true, publishOk := publishOk } config payload).2 =
      [(config.timeBombChannel,
        marshalTimeBombMessage
          { channel := reactionEvent.event.item.channel
            ts := reactionEvent.event.item.ts
            ttl := config.timeBombTTL })] := by
  unfold handleReactionMessage
  rw [hdec]
  simp only [hmatch, ne_eq, not_true_eq_false, if_false, ite_false,
    if_neg, not_false_eq_true, hmeta, if_true, ite_true]
  unfold publishTimeBombMessage
  cases publishOk <;> simp [cleanupAttempts]

/-- Claim C5 witness: the fixture event yields exactly one cleanup attempt
with channel C123, the event timestamp, and TTL 86400. -/
theorem one_cleanup_with_event_coordinates_witness :
    decodeReactionEvent wPayload = .ok wEvent ∧
    cleanupAttempts (handleReactionMessage wFetch
        { rpushOk := true, publishOk := true } wConfig wPayload).2 =
      [("timebomb-messages",
        "\x7b\"channel\":\"C123\",\"ts\":\"1700000000.000100\",\"ttl\":86400\x7d")] :=
  ⟨by rfl,
    (one_cleanup_with_event_coordinates wFetch true wConfig wPayload wEvent wMeta
      (by rfl) (by rfl) (by rfl)).trans (by rfl)⟩

/-- Claim C9: the pipeline never attempts a cleanup publish unless it has
successfully published a work-queue entry first: whenever the trace holds
no successful push, it holds no cleanup attempt either. -/
theorem no_cleanup_without_queued_work (slackFetch : SlackFetch)
    (redis : RedisOutcome) (config : Config) (payload : Payload)
    (h : workQueueEntries
      (handleReactionMessage slackFetch redis config payload).2 = []) :
    cleanupAttempts (handleReactionMessage slackFetch redis config payload).2 = [] := by
  rcases handle_effects_shape slackFetch redis config payload with
    hs | ⟨v, hs⟩ | ⟨v, c, hs⟩
  · rw [hs]; rfl
  · rw [hs]; rfl
  · rw [hs] at h
    exact absurd h (by simp [workQueueEntries])

/-- Claim C9 witness: an event abandoned at the emoji filter has no
successful push and no cleanup attempt. -/
theorem no_cleanup_without_queued_work_witness :
    workQueueEntries (handleReactionMessage wFetch
        { rpushOk := true, publishOk := true } wConfig
        (.json (.obj [("event", .obj [("reaction", .str "wave")])]))).2 = [] ∧
    cleanupAttempts (handleReactionMessage wFetch
        { rpushOk := true, publishOk := true } wConfig
        (.json (.obj [("event", .obj [("reaction", .str "wave")])]))).2 = [] :=
  ⟨by rfl,
    no_cleanup_without_queued_work wFetch { rpushOk := true, publishOk := true }
      wConfig (.json (.obj [("event", .obj [("reaction", .str "wave")])])) (by rfl)⟩

/-- Claim C6: over any finite delivery sequence, the work-queue entries
appear in exactly the relative order of the inbound messages that
triggered them: the trace of published entries is the in-order filterMap
of the per-message contribution (each message contributing at most one
entry, in place). -/
theorem processReactions_preserves_order (slackFetch : SlackFetch)
    (config : Config) (msgs : List Inbound) :
    workQueueEntries (processReactions slackFetch config msgs) =
      msgs.filterMap (messageEntry slackFetch config) := by
  induction msgs with
  | nil => rfl
  | cons m rest ih =>
    cases hr : m.recv with
    | error e =>
      simp [processReactions, hr, messageEntry, List.filterMap_cons, ih]
    | ok payload =>
      rcases handle_at_most_one_entry slackFetch m.redis config payload with
        hs | ⟨entry, hs⟩
      · simp [processReactions, hr, messageEntry, List.filterMap_cons,
          workQueueEntries_append, hs, ih]
      · simp [processReactions, hr, messageEntry, List.filterMap_cons,
          workQueueEntries_append, hs, ih]
